import Mathlib

/-!
# Verification of the yad2 new-ads scraper core (src/index.ts)

Shallow embedding of the scraper's pure logic:

* `getYad2ResponseLoop` models the retry/backoff/timeout loop of
  `getYad2Response` (src/index.ts lines 29-73).  The network is abstracted
  as functions giving, for the n-th actual fetch call, whether it succeeds,
  how long it takes (in milliseconds, as rationals), and its body.
* `scrapeItemsAndExtractAdDetails` models the extraction function
  (lines 76-134) over an abstract parsed document.
* `checkForNewItems` models the change detector (lines 137-174) over an
  explicit file-system state.
* `scrape` models the per-topic pipeline handler (lines 241-272), with the
  already-fetched-and-extracted outcome abstracted as a parameter and the
  Telegram sends recorded as a list of notification values.
-/

namespace Yad2

/-! ## Resilient fetcher (src/index.ts lines 29-73) -/

/-- `backoffDelay(attempt) = Math.pow(2, attempt) * 1000` (line 42),
in milliseconds.  The exponent is an integer because the code computes it
as `3 - retries` with a hard-coded 3, which can be negative when the
function is called with more than 3 retries. -/
def backoffDelay (attempt : ℤ) : ℚ := 2 ^ attempt * 1000

/-- Terminal failures of the fetch loop. -/
inductive FetchErr where
  /-- `throw new Error("Network error occurred after multiple retries")` (line 65). -/
  | retriesExhausted : FetchErr
  /-- `throw new Error("Failed to fetch Yad2 response")` after the loop (line 72);
  reachable only when the initial `retries` is 0. -/
  | loopExit : FetchErr
deriving DecidableEq

/-- Observable trace state of one `getYad2Response` run: wall-clock time
elapsed since `startTime` (ms), number of actual `fetch` calls made, and the
backoff sleeps performed, in order (ms each). -/
structure FetchState where
  elapsed : ℚ
  calls : ℕ
  sleeps : List ℚ
deriving DecidableEq

/-- `await new Promise(resolve => setTimeout(resolve, delay))` (line 69):
wall-clock time advances by the delay and the sleep is recorded. -/
def sleepFS (s : FetchState) (d : ℚ) : FetchState :=
  { s with elapsed := s.elapsed + d, sleeps := s.sleeps ++ [d] }

/-- The `while (retries > 0)` loop of `getYad2Response` (lines 45-71).
`ok n` / `dur n` / `body n` describe the n-th actual fetch call.  Each
iteration: if elapsed time exceeds `maxTimeout` the code throws inside the
`try`, so its own `catch` handles it exactly like a fetch failure —
`retries -= 1`, throw `retriesExhausted` when retries hit 0, otherwise
sleep `backoffDelay(3 - retries)` and loop.  Otherwise a fetch call is
made; success returns its body, failure takes the same catch path. -/
def getYad2ResponseLoop (ok : ℕ → Bool) (dur : ℕ → ℚ) (body : ℕ → String)
    (maxTimeout : ℚ) : ℕ → FetchState → FetchState × Except FetchErr String
  | 0, s => (s, .error .loopExit)
  | r + 1, s =>
    if maxTimeout < s.elapsed then
      if r = 0 then (s, .error .retriesExhausted)
      else getYad2ResponseLoop ok dur body maxTimeout r
        (sleepFS s (backoffDelay (3 - (r : ℤ))))
    else
      let s' := { s with elapsed := s.elapsed + dur s.calls, calls := s.calls + 1 }
      if ok s.calls then (s', .ok (body s.calls))
      else if r = 0 then (s', .error .retriesExhausted)
      else getYad2ResponseLoop ok dur body maxTimeout r
        (sleepFS s' (backoffDelay (3 - (r : ℤ))))

/-- `getYad2Response(url, retries = 3, maxTimeout = 10000)` (line 29):
run the loop from elapsed time 0 with no calls made yet. -/
def getYad2Response (ok : ℕ → Bool) (dur : ℕ → ℚ) (body : ℕ → String)
    (retries : ℕ := 3) (maxTimeout : ℚ := 10000) :
    FetchState × Except FetchErr String :=
  getYad2ResponseLoop ok dur body maxTimeout retries ⟨0, 0, []⟩


/-! ## Listing extractor (src/index.ts lines 76-134) -/

/-- One extracted listing (object pushed at lines 122-129).  All fields are
strings; a missing datum is the empty string.  The `structure` field of the
source is named `structure0` because `structure` is a Lean keyword. -/
structure AdRecord where
  fullLink : String
  imageUrl : String
  address : String
  description : String
  structure0 : String
  price : String
deriving DecidableEq

/-- One DOM node matched by the feed-item selector, abstracted to the six
sub-queries the extractor performs on it (lines 109-114).  `attr` calls
(`src`, `href`) return `undefined` when absent, hence `Option String`;
`.text()` of an empty cheerio selection returns the empty string, hence
plain `String` holding the raw (untrimmed) text. -/
structure ItemNode where
  imageSrc : Option String
  addressText : String
  descriptionText : String
  structureText : String
  priceText : String
  relativeLink : Option String
deriving DecidableEq

/-- The parsed document, abstracted to what the extractor queries:
`$("title").first().text()` and the node list matched by the single feed
selector `[data-testid='item-basic']`, in document order. -/
structure Document where
  title : String
  items : List ItemNode
deriving DecidableEq

/-- Failures of `scrapeItemsAndExtractAdDetails`. -/
inductive ScrapeError where
  /-- `throw new Error("Bot detection encountered, could not proceed")` (line 85). -/
  | botBlocked : ScrapeError
  /-- `throw new Error("Could not find feed items on the page")` (line 103). -/
  | noItemsFound : ScrapeError
deriving DecidableEq

/-- JS `String.prototype.trim`: drop leading and trailing whitespace.
(Defined on the character list so that it is kernel-reducible.) -/
def jsTrim (s : String) : String :=
  ⟨((s.data.dropWhile Char.isWhitespace).reverse.dropWhile Char.isWhitespace).reverse⟩

/-- The per-node extraction body (lines 109-129).  `imageUrl || ""` maps a
missing `src` to `""`; text fields are trimmed; `if (relativeLink)` treats
both a missing and an empty `href` as falsy, leaving `fullLink` empty,
otherwise `fullLink = baseUrl + relativeLink`. -/
def extractAd (elm : ItemNode) : AdRecord :=
  let fullLink : String :=
    match elm.relativeLink with
    | some rl => if rl = "" then "" else "https://www.yad2.co.il" ++ rl
    | none => ""
  { fullLink := fullLink
    imageUrl := elm.imageSrc.getD ""
    address := jsTrim elm.addressText
    description := jsTrim elm.descriptionText
    structure0 := jsTrim elm.structureText
    price := jsTrim elm.priceText }

/-- `scrapeItemsAndExtractAdDetails` (lines 76-134), taking the already
fetched-and-parsed document: fail on the bot-challenge title, fail when the
selector matches no nodes, otherwise map every matched node to one record. -/
def scrapeItemsAndExtractAdDetails (doc : Document) : Except ScrapeError (List AdRecord) :=
  if doc.title = "ShieldSquare Captcha" then .error .botBlocked
  else if doc.items.isEmpty then .error .noItemsFound
  else .ok (doc.items.map extractAd)

/-! ## Change detector (src/index.ts lines 137-180) -/

/-- Content of a file in the model.  `parsed l` stands for text that
`new Set(JSON.parse(data))` turns into the set of strings `l` (listed in
JSON-array order); `raw s` stands for text `s` on which that expression
throws (the corrupt-state path). -/
inductive FileData where
  | parsed : List String → FileData
  | raw : String → FileData
deriving DecidableEq

/-- File-system state: newest write first; reads find the newest entry. -/
def FS : Type := List (String × FileData)

instance : DecidableEq FS := by unfold FS; infer_instance

/-- `writeFile(p, c)`. -/
def fsWrite (fs : FS) (p : String) (c : FileData) : FS := (p, c) :: fs

/-- `readFile(p)` / `fs.existsSync(p)` (as `Option.isSome`). -/
def fsRead (fs : FS) (p : String) : Option FileData :=
  (List.find? (fun e => e.1 = p) fs).map (fun e => e.2)

/-- `./data/${topic}.json` (line 139). -/
def dataFilePath (topic : String) : String := "./data/" ++ topic ++ ".json"

/-- JS `Set.prototype.add`: append the key if absent (insertion order). -/
def jsSetAdd (s : List String) (x : String) : List String :=
  if x ∈ s then s else s ++ [x]

/-- `new Set(list)`: dedup keeping first occurrences, in order. -/
def jsSetOfList (l : List String) : List String := l.foldl jsSetAdd []

/-- `newItems.forEach(ad => savedAds.add(ad.imageUrl))` (line 168). -/
def addImageUrls (s : List String) (ads : List AdRecord) : List String :=
  ads.foldl (fun acc ad => jsSetAdd acc ad.imageUrl) s

/-- `createPushFlagForWorkflow` (lines 177-180): `writeFile("push_me", "")`. -/
def createPushFlagForWorkflow (fs : FS) : FS := fsWrite fs "push_me" (.raw "")

/-- Loading phase of `checkForNewItems` (lines 139-163): read the topic's
state file; on parse failure fall back to the empty set after backing up the
corrupt content to `${filePath}.backup`; when the file does not exist,
create it containing `[]`.  Returns the in-memory `savedAds` set and the
file system after those side effects. -/
def loadSavedAds (fs : FS) (topic : String) : List String × FS :=
  match fsRead fs (dataFilePath topic) with
  | some (.parsed l) => (jsSetOfList l, fs)
  | some (.raw s) => ([], fsWrite fs (dataFilePath topic ++ ".backup") (.raw s))
  | none => ([], fsWrite fs (dataFilePath topic) (.parsed []))

/-- `checkForNewItems(ads, topic)` (lines 137-174): load the seen-set,
filter the input to the ads whose `imageUrl` it does not contain, and when
any were found add their keys, persist the updated set
(`JSON.stringify(Array.from(savedAds))`), and create the push flag.
Returns the resulting file system and the new items. -/
def checkForNewItems (fs : FS) (ads : List AdRecord) (topic : String) :
    FS × List AdRecord :=
  let loaded := loadSavedAds fs topic
  let newItems := ads.filter (fun ad => !(decide (ad.imageUrl ∈ loaded.1)))
  if 0 < newItems.length then
    let savedAds := addImageUrls loaded.1 newItems
    (createPushFlagForWorkflow
      (fsWrite loaded.2 (dataFilePath topic) (.parsed savedAds)), newItems)
  else (loaded.2, newItems)

/-! ## Per-topic pipeline handler `scrape` (src/index.ts lines 241-272) -/

/-- A message handed to the Telegram transport (lines 183-238), recorded
instead of sent. -/
inductive Notification where
  | text : (chatId : String) → (body : String) → Notification
  | photo : (chatId : String) → (photoUrl : String) → (caption : String) → Notification
deriving DecidableEq

/-- Result of the fetch-and-extract stages feeding `scrape`, abstracted:
either the extracted records, or the message of whatever error the stages
threw. -/
inductive PipelineOutcome where
  | ok : List AdRecord → PipelineOutcome
  | fail : String → PipelineOutcome
deriving DecidableEq

/-- The caption built for each new item (line 256). -/
def itemMessage (item : AdRecord) : String :=
  item.address ++ "\n" ++ item.description ++ "\n" ++ item.structure0 ++ "\n"
    ++ item.price ++ "\n\n" ++ item.fullLink

/-- The text sent from `scrape`'s catch block (line 269): note it contains
the error message but not the topic. -/
def failureMessage (errMsg : String) : String :=
  "Scan workflow failed... 😥\nError: " ++ errMsg

/-- `scrape(topic, url)` (lines 241-272) after the fetch/extract stages
(summarised by `outcome`): on success run the change detector and send one
photo message per new item with a non-empty `imageUrl` (text otherwise); on
failure send the single failure text.  Returns the file system and the
notifications sent, in order. -/
def scrape (fs : FS) (topic chatId : String) (outcome : PipelineOutcome) :
    FS × List Notification :=
  match outcome with
  | .fail errMsg => (fs, [.text chatId (failureMessage errMsg)])
  | .ok ads =>
    let res := checkForNewItems fs ads topic
    (res.1, res.2.map (fun item =>
      if item.imageUrl ≠ "" then .photo chatId item.imageUrl (itemMessage item)
      else .text chatId (itemMessage item)))

/-- `haystack` starts with `needle` (on `List Char`). -/
def listStartsWith : List Char → List Char → Bool
  | _, [] => true
  | [], _ :: _ => false
  | a :: as, b :: bs => a = b && listStartsWith as bs

/-- JS `String.prototype.includes`, used to state what a notification text
does or does not contain. -/
def strIncludes (s pat : String) : Bool :=
  (List.range (s.data.length + 1)).any
    (fun i => listStartsWith (s.data.drop i) pat.data)

/-! ## Lemmas about the fetch loop's backoff sleeps -/

/-- Shifting the retry-count exponent by one fuel step. -/
theorem backoffDelay_cons_range (r' : ℕ) :
    backoffDelay (3 - ((r' : ℤ) + 1)) ::
      (List.range r').map (fun j : ℕ => backoffDelay ((j : ℤ) + 4 - ((r' : ℤ) + 1))) =
    (List.range (r' + 1)).map (fun j : ℕ => backoffDelay ((j : ℤ) + 4 - ((r' : ℤ) + 2))) := by
  rw [List.range_succ_eq_map]
  simp only [List.map_cons, List.map_map, Nat.cast_zero]
  congr 1
  · congr 1; ring
  · apply List.map_congr_left
    intro j _
    simp only [Function.comp_apply]
    congr 1
    push_cast
    ring

/-- When every fetch attempt fails, the loop started with fuel `r` performs
exactly `r - 1` backoff sleeps, the `(j+1)`-th being
`backoffDelay (j + 4 - r)` — i.e. `2 ^ ((j+1) + 3 - r)` seconds — no matter
the durations or the timeout ceiling (the timeout branch throws inside the
`try`, so it sleeps the same backoff as a failed fetch). -/
theorem getYad2ResponseLoop_sleeps_of_fail (ok : ℕ → Bool) (dur : ℕ → ℚ)
    (body : ℕ → String) (mt : ℚ) (hok : ∀ n, ok n = false) :
    ∀ (r : ℕ) (s : FetchState),
      (getYad2ResponseLoop ok dur body mt r s).1.sleeps =
        s.sleeps ++ (List.range (r - 1)).map
          (fun j : ℕ => backoffDelay ((j : ℤ) + 4 - (r : ℤ))) := by
  intro r
  induction r with
  | zero => intro s; simp [getYad2ResponseLoop]
  | succ r ih =>
    intro s
    rw [getYad2ResponseLoop]
    have key : ∀ t : FetchState, r ≠ 0 →
        (getYad2ResponseLoop ok dur body mt r
          (sleepFS t (backoffDelay (3 - (r : ℤ))))).1.sleeps =
        t.sleeps ++ (List.range (r + 1 - 1)).map
          (fun j : ℕ => backoffDelay ((j : ℤ) + 4 - ((r : ℤ) + 1))) := by
      intro t hr
      rw [ih]
      obtain ⟨r', rfl⟩ : ∃ r', r = r' + 1 := ⟨r - 1, by omega⟩
      simp only [sleepFS, Nat.add_sub_cancel, List.append_assoc, List.singleton_append]
      congr 1
      have h1 : ((r' + 1 : ℕ) : ℤ) = (r' : ℤ) + 1 := by push_cast; ring
      rw [h1]
      have h2 : ((r' : ℤ) + 1 + 1) = (r' : ℤ) + 2 := by ring
      rw [h2]
      exact backoffDelay_cons_range r'
    by_cases hmt : mt < s.elapsed
    · rw [if_pos hmt]
      by_cases hr : r = 0
      · subst hr; simp
      · rw [if_neg hr, key s hr]
        congr 2
    · rw [if_neg hmt]
      rw [hok]
      simp only [Bool.false_eq_true, if_false]
      by_cases hr : r = 0
      · subst hr; simp
      · rw [if_neg hr, key _ hr]
        congr 2


/-! ## Lemmas about the change detector's data structures -/

theorem mem_jsSetAdd (s : List String) (x y : String) :
    x ∈ jsSetAdd s y ↔ x ∈ s ∨ x = y := by
  unfold jsSetAdd
  split
  · rename_i h
    constructor
    · exact Or.inl
    · rintro (hx | rfl)
      · exact hx
      · exact h
  · simp

theorem subset_jsSetAdd (s : List String) (y : String) : s ⊆ jsSetAdd s y := by
  unfold jsSetAdd
  split
  · exact fun _ h => h
  · exact List.subset_append_left s [y]

theorem mem_foldl_jsSetAdd (l : List String) :
    ∀ (s : List String) (x : String), x ∈ l.foldl jsSetAdd s ↔ x ∈ s ∨ x ∈ l := by
  induction l with
  | nil => simp
  | cons a l ih =>
    intro s x
    simp only [List.foldl_cons, ih, mem_jsSetAdd, List.mem_cons]
    tauto

theorem mem_jsSetOfList (l : List String) (x : String) :
    x ∈ jsSetOfList l ↔ x ∈ l := by
  unfold jsSetOfList
  rw [mem_foldl_jsSetAdd]
  simp

theorem mem_addImageUrls (ads : List AdRecord) :
    ∀ (s : List String) (x : String),
      x ∈ addImageUrls s ads ↔ x ∈ s ∨ ∃ ad ∈ ads, ad.imageUrl = x := by
  induction ads with
  | nil => simp [addImageUrls]
  | cons a ads ih =>
    intro s x
    unfold addImageUrls at ih ⊢
    simp only [List.foldl_cons, ih, mem_jsSetAdd, List.mem_cons]
    constructor
    · rintro ((hx | rfl) | ⟨ad, had, rfl⟩)
      · exact Or.inl hx
      · exact Or.inr ⟨a, Or.inl rfl, rfl⟩
      · exact Or.inr ⟨ad, Or.inr had, rfl⟩
    · rintro (hx | ⟨ad, (rfl | had), rfl⟩)
      · exact Or.inl (Or.inl hx)
      · exact Or.inl (Or.inr rfl)
      · exact Or.inr ⟨ad, had, rfl⟩

theorem subset_addImageUrls (s : List String) (ads : List AdRecord) :
    s ⊆ addImageUrls s ads := by
  intro x hx
  rw [mem_addImageUrls]
  exact Or.inl hx

theorem dataFilePath_length (topic : String) :
    (dataFilePath topic).length = topic.length + 12 := by
  unfold dataFilePath
  rw [String.length_append, String.length_append]
  have h7 : ("./data/" : String).length = 7 := rfl
  have h5 : (".json" : String).length = 5 := rfl
  omega

theorem dataFilePath_ne_pushMe (topic : String) : dataFilePath topic ≠ "push_me" := by
  intro h
  have := congrArg String.length h
  rw [dataFilePath_length] at this
  have h7 : ("push_me" : String).length = 7 := rfl
  omega

theorem backupPath_ne_pushMe (topic : String) :
    dataFilePath topic ++ ".backup" ≠ "push_me" := by
  intro h
  have := congrArg String.length h
  rw [String.length_append, dataFilePath_length] at this
  have h7 : ("push_me" : String).length = 7 := rfl
  have hb : (".backup" : String).length = 7 := rfl
  omega

theorem backupPath_ne_dataFilePath (topic : String) :
    dataFilePath topic ++ ".backup" ≠ dataFilePath topic := by
  intro h
  have := congrArg String.length h
  rw [String.length_append, dataFilePath_length] at this
  have hb : (".backup" : String).length = 7 := rfl
  omega

theorem fsRead_fsWrite_self (fs : FS) (p : String) (c : FileData) :
    fsRead (fsWrite fs p c) p = some c := by
  simp [fsRead, fsWrite, List.find?]

theorem fsRead_fsWrite_ne (fs : FS) (p q : String) (c : FileData) (h : q ≠ p) :
    fsRead (fsWrite fs p c) q = fsRead fs q := by
  simp only [fsRead, fsWrite, List.find?]
  rw [decide_eq_false (by exact fun hpq => h hpq.symm)]


/-! ## Lemmas about `checkForNewItems` -/

/-- The returned new-items list is the filter of the input against the
loaded seen-set, in both branches of the write-back conditional. -/
theorem checkForNewItems_snd (fs : FS) (ads : List AdRecord) (topic : String) :
    (checkForNewItems fs ads topic).2 =
      ads.filter (fun ad => !(decide (ad.imageUrl ∈ (loadSavedAds fs topic).1))) := by
  unfold checkForNewItems
  dsimp only
  split <;> rfl

/-- File system resulting from a run that found new items. -/
theorem checkForNewItems_fst_pos (fs : FS) (ads : List AdRecord) (topic : String)
    (h : ads.filter (fun ad => !(decide (ad.imageUrl ∈ (loadSavedAds fs topic).1))) ≠ []) :
    (checkForNewItems fs ads topic).1 =
      createPushFlagForWorkflow
        (fsWrite (loadSavedAds fs topic).2 (dataFilePath topic)
          (.parsed (addImageUrls (loadSavedAds fs topic).1
            (ads.filter (fun ad => !(decide (ad.imageUrl ∈ (loadSavedAds fs topic).1))))))) := by
  unfold checkForNewItems
  dsimp only
  rw [if_pos (by exact List.length_pos.mpr h)]

/-- File system resulting from a run that found nothing new: only the
loading phase's effects. -/
theorem checkForNewItems_fst_neg (fs : FS) (ads : List AdRecord) (topic : String)
    (h : ads.filter (fun ad => !(decide (ad.imageUrl ∈ (loadSavedAds fs topic).1))) = []) :
    (checkForNewItems fs ads topic).1 = (loadSavedAds fs topic).2 := by
  unfold checkForNewItems
  dsimp only
  rw [if_neg (by rw [h]; exact lt_irrefl 0)]


/-! ## Lemmas for `loadSavedAds` and substring containment -/

/-- Reading a state file that parses yields its set, with no file-system
side effect. -/
theorem loadSavedAds_parsed (fs : FS) (topic : String) (l : List String)
    (h : fsRead fs (dataFilePath topic) = some (.parsed l)) :
    loadSavedAds fs topic = (jsSetOfList l, fs) := by
  unfold loadSavedAds; rw [h]

theorem listStartsWith_self (l : List Char) : listStartsWith l l = true := by
  induction l with
  | nil => rfl
  | cons a as ih => simp [listStartsWith, ih]

/-- A string contains any of its own suffixes. -/
theorem strIncludes_right (pre e : String) : strIncludes (pre ++ e) e = true := by
  unfold strIncludes
  rw [List.any_eq_true]
  refine ⟨pre.data.length, ?_, ?_⟩
  · rw [List.mem_range]
    have : (pre ++ e).data = pre.data ++ e.data := String.data_append pre e
    rw [this, List.length_append]
    omega
  · have : (pre ++ e).data = pre.data ++ e.data := String.data_append pre e
    rw [this, List.drop_left]
    exact listStartsWith_self e.data

/-! ## The claims -/

/-- Claim C1: for every topic and input list of ads, `checkForNewItems`
returns exactly the subsequence of the input whose `imageUrl` is not in
the seen-set loaded at the start of the call, preserving input order: the
result is the order-preserving filter of the input, it is a sublist of the
input, and an ad is in the result iff it is in the input and its key was
absent from the loaded set. -/
theorem C1_detectNew_filters_by_seen_set (fs : FS) (ads : List AdRecord) (topic : String) :
    (checkForNewItems fs ads topic).2 =
      ads.filter (fun ad => !(decide (ad.imageUrl ∈ (loadSavedAds fs topic).1)))
    ∧ List.Sublist (checkForNewItems fs ads topic).2 ads
    ∧ (∀ ad, ad ∈ (checkForNewItems fs ads topic).2 ↔
        ad ∈ ads ∧ ad.imageUrl ∉ (loadSavedAds fs topic).1) := by
  refine ⟨checkForNewItems_snd fs ads topic, ?_, ?_⟩
  · rw [checkForNewItems_snd]
    exact List.filter_sublist ads
  · intro ad
    rw [checkForNewItems_snd, List.mem_filter]
    simp

/-- Claim C2 (evaluation at the failing input): with the default 3 retries
and 10000 ms ceiling, when the first attempt fails after 11000 ms — so the
ceiling is already exceeded — the fetcher does NOT fail immediately: it
makes no further fetch call (`calls = 1`) but consumes the two remaining
retries, sleeping their 2000 ms and 4000 ms backoffs (total elapsed
17000 ms), and finally reports the retries-exhausted error, because the
timeout throw at line 50 is caught by the same function's own catch.  This
contradicts the claim (and the code's own log, "aborting retries"). -/
theorem C2_timeout_exceeded_still_consumes_retries :
    ((getYad2Response (fun _ => false) (fun n => if n = 0 then 11000 else 0)
        (fun _ => "") 3 10000).1.elapsed = 17000)
    ∧ ((getYad2Response (fun _ => false) (fun n => if n = 0 then 11000 else 0)
        (fun _ => "") 3 10000).1.calls = 1)
    ∧ ((getYad2Response (fun _ => false) (fun n => if n = 0 then 11000 else 0)
        (fun _ => "") 3 10000).1.sleeps = [2000, 4000])
    ∧ ((getYad2Response (fun _ => false) (fun n => if n = 0 then 11000 else 0)
        (fun _ => "") 3 10000).2 = .error .retriesExhausted) := by
  refine ⟨?_, ?_, ?_, ?_⟩ <;>
    norm_num [getYad2Response, getYad2ResponseLoop, sleepFS, backoffDelay]

/-- Claim C3, counterexample: with `maxRetries = 4` (and every attempt
failing instantly) the delay before the first retry is 1000 ms, not the
2 ^ 1 seconds = 2000 ms the claim requires for every `maxRetries` value,
because line 67 computes the exponent as `3 - retries` with a hard-coded 3. -/
theorem C3_counterexample_first_delay_not_two_seconds :
    (getYad2Response (fun _ => false) (fun _ => 0) (fun _ => "") 4 10000).1.sleeps.head?
      ≠ some (2 ^ (1 : ℤ) * 1000)
    ∧ (getYad2Response (fun _ => false) (fun _ => 0) (fun _ => "") 4 10000).1.sleeps.head?
      = some 1000 := by
  constructor <;>
    norm_num [getYad2Response, getYad2ResponseLoop, sleepFS, backoffDelay, List.head?]

/-- Claim C3 as amended: when every attempt fails, the delay before the
i-th retry (i = j + 1 below) is exactly `2 ^ (i + 3 - maxRetries)` seconds
with no jitter; only for the default `maxRetries = 3` — the sole value the
code ever passes — does this equal `2 ^ i` seconds (2 s then 4 s). -/
theorem C3_backoff_delay_formula (ok : ℕ → Bool) (dur : ℕ → ℚ) (body : ℕ → String)
    (retries : ℕ) (maxTimeout : ℚ) (hok : ∀ n, ok n = false) :
    (getYad2Response ok dur body retries maxTimeout).1.sleeps =
      (List.range (retries - 1)).map
        (fun j : ℕ => 2 ^ (((j : ℤ) + 1) + 3 - retries) * 1000)
    ∧ (getYad2Response ok dur body 3 maxTimeout).1.sleeps =
      [2 ^ (1 : ℤ) * 1000, 2 ^ (2 : ℤ) * 1000] := by
  constructor
  · rw [getYad2Response, getYad2ResponseLoop_sleeps_of_fail ok dur body maxTimeout hok]
    simp only [List.nil_append]
    apply List.map_congr_left
    intro j _
    unfold backoffDelay
    have he : ((j : ℤ) + 4 - (retries : ℤ)) = (((j : ℤ) + 1) + 3 - (retries : ℤ)) := by
      ring
    rw [he]
  · rw [getYad2Response, getYad2ResponseLoop_sleeps_of_fail ok dur body maxTimeout hok]
    norm_num [backoffDelay, List.range_succ]

/-- Witness for `C3_backoff_delay_formula` at all-failing attempts of
duration 0, default retries 3 and ceiling 10000: delays 2000 ms, 4000 ms. -/
theorem C3_backoff_delay_formula_witness :
    (getYad2Response (fun _ => false) (fun _ => 0) (fun _ => "") 3 10000).1.sleeps =
      [2 ^ (1 : ℤ) * 1000, 2 ^ (2 : ℤ) * 1000] :=
  (C3_backoff_delay_formula (fun _ => false) (fun _ => 0) (fun _ => "") 3 10000
    (fun _ => rfl)).2

/-- Claim C4: when the topic's state file exists but fails to parse, the
run is not aborted: the seen-set falls back to empty — so every input ad is
reported new — and afterwards the backup file holds the original unparsed
content. -/
theorem C4_corrupt_state_recovery (fs : FS) (ads : List AdRecord) (topic : String)
    (s : String) (h : fsRead fs (dataFilePath topic) = some (.raw s)) :
    (checkForNewItems fs ads topic).2 = ads ∧
    fsRead (checkForNewItems fs ads topic).1 (dataFilePath topic ++ ".backup")
      = some (.raw s) := by
  have hload1 : (loadSavedAds fs topic).1 = [] := by
    unfold loadSavedAds; rw [h]
  have hload2 : (loadSavedAds fs topic).2 =
      fsWrite fs (dataFilePath topic ++ ".backup") (.raw s) := by
    unfold loadSavedAds; rw [h]
  have hsnd : (checkForNewItems fs ads topic).2 = ads := by
    rw [checkForNewItems_snd, hload1]
    simp
  refine ⟨hsnd, ?_⟩
  by_cases hne : ads.filter
      (fun ad => !(decide (ad.imageUrl ∈ (loadSavedAds fs topic).1))) = []
  · rw [checkForNewItems_fst_neg _ _ _ hne, hload2, fsRead_fsWrite_self]
  · rw [checkForNewItems_fst_pos _ _ _ hne]
    unfold createPushFlagForWorkflow
    rw [fsRead_fsWrite_ne _ _ _ _ (backupPath_ne_pushMe topic),
        fsRead_fsWrite_ne _ _ _ _ (backupPath_ne_dataFilePath topic),
        hload2, fsRead_fsWrite_self]

/-- Witness for `C4_corrupt_state_recovery`: topic `"t"` whose state file
holds the unparseable text `"oops"`, one input ad. -/
theorem C4_corrupt_state_recovery_witness :
    fsRead ([(dataFilePath "t", FileData.raw "oops")] : FS) (dataFilePath "t")
        = some (.raw "oops")
    ∧ ((checkForNewItems ([(dataFilePath "t", FileData.raw "oops")] : FS)
          [⟨"", "img1", "", "", "", ""⟩] "t").2 = [⟨"", "img1", "", "", "", ""⟩]
      ∧ fsRead (checkForNewItems ([(dataFilePath "t", FileData.raw "oops")] : FS)
          [⟨"", "img1", "", "", "", ""⟩] "t").1 (dataFilePath "t" ++ ".backup")
        = some (.raw "oops")) :=
  ⟨by decide,
   C4_corrupt_state_recovery _ [⟨"", "img1", "", "", "", ""⟩] "t" "oops" (by decide)⟩

/-- Claim C5: the persisted seen-set only grows.  When the new-item count
is nonzero the set written back is the loaded set united with the new ads'
`imageUrl` keys (in particular a superset of the loaded set, nothing
evicted); when the new-item count is zero an existing state file is left
untouched. -/
theorem C5_seen_set_monotonic (fs : FS) (ads : List AdRecord) (topic : String) :
    ((checkForNewItems fs ads topic).2 ≠ [] →
      ∃ w, fsRead (checkForNewItems fs ads topic).1 (dataFilePath topic)
          = some (.parsed w)
        ∧ (loadSavedAds fs topic).1 ⊆ w
        ∧ (∀ x, x ∈ w ↔ x ∈ (loadSavedAds fs topic).1 ∨
            ∃ ad ∈ (checkForNewItems fs ads topic).2, ad.imageUrl = x))
    ∧ ((checkForNewItems fs ads topic).2 = [] →
        ∀ c, fsRead fs (dataFilePath topic) = some c →
          fsRead (checkForNewItems fs ads topic).1 (dataFilePath topic) = some c) := by
  constructor
  · intro h
    rw [checkForNewItems_snd] at h
    rw [checkForNewItems_fst_pos _ _ _ h]
    refine ⟨addImageUrls (loadSavedAds fs topic).1
      (ads.filter (fun ad => !(decide (ad.imageUrl ∈ (loadSavedAds fs topic).1)))),
      ?_, ?_, ?_⟩
    · unfold createPushFlagForWorkflow
      rw [fsRead_fsWrite_ne _ _ _ _ (dataFilePath_ne_pushMe topic), fsRead_fsWrite_self]
    · exact subset_addImageUrls _ _
    · intro x
      rw [mem_addImageUrls, checkForNewItems_snd]
  · intro h c hc
    rw [checkForNewItems_snd] at h
    rw [checkForNewItems_fst_neg _ _ _ h]
    unfold loadSavedAds
    rw [hc]
    match c with
    | .parsed l => exact hc
    | .raw s =>
      rw [fsRead_fsWrite_ne _ _ _ _ (Ne.symm (backupPath_ne_dataFilePath topic))]
      exact hc

/-- Witness for `C5_seen_set_monotonic`: the growth part at an empty file
system with one fresh ad (key `"imgB"`), and the no-rewrite part at a state
file already containing the only input key (`"imgA"`). -/
theorem C5_seen_set_monotonic_witness :
    (∃ w, fsRead (checkForNewItems ([] : FS) [⟨"", "imgB", "", "", "", ""⟩] "t").1
          (dataFilePath "t") = some (.parsed w)
        ∧ (loadSavedAds ([] : FS) "t").1 ⊆ w
        ∧ (∀ x, x ∈ w ↔ x ∈ (loadSavedAds ([] : FS) "t").1 ∨
            ∃ ad ∈ (checkForNewItems ([] : FS) [⟨"", "imgB", "", "", "", ""⟩] "t").2,
              ad.imageUrl = x))
    ∧ fsRead (checkForNewItems ([(dataFilePath "t", FileData.parsed ["imgA"])] : FS)
          [⟨"", "imgA", "", "", "", ""⟩] "t").1 (dataFilePath "t")
        = some (.parsed ["imgA"]) :=
  ⟨(C5_seen_set_monotonic ([] : FS) [⟨"", "imgB", "", "", "", ""⟩] "t").1 (by decide),
   (C5_seen_set_monotonic ([(dataFilePath "t", FileData.parsed ["imgA"])] : FS)
      [⟨"", "imgA", "", "", "", ""⟩] "t").2 (by decide) (.parsed ["imgA"]) (by decide)⟩

/-- Claim C6, counterexample: the failure notification sent by `scrape`'s
catch block for topic `"tel-aviv"` failing with `"Boom"` is a single text
message, but its content does not contain the topic name — line 269 builds
the message from the error alone — refuting the claim that it contains
both the topic name and the error message. -/
theorem C6_counterexample_no_topic_in_failure_text :
    (scrape ([] : FS) "tel-aviv" "chat" (.fail "Boom")).2 =
      [.text "chat" (failureMessage "Boom")]
    ∧ strIncludes (failureMessage "Boom") "tel-aviv" = false :=
  ⟨rfl, by decide⟩

/-- Claim C6 as amended: for every failing topic pipeline, the per-topic
handler sends exactly one text notification, whose content contains the
error message (the topic name is not part of the message). -/
theorem C6_failure_notification_contains_error (fs : FS) (topic chatId errMsg : String) :
    (scrape fs topic chatId (.fail errMsg)).2 =
      [.text chatId (failureMessage errMsg)]
    ∧ strIncludes (failureMessage errMsg) errMsg = true := by
  refine ⟨rfl, ?_⟩
  exact strIncludes_right "Scan workflow failed... 😥\nError: " errMsg

/-- Claim C7: a document whose title matches the bot-challenge signature
fails with the bot-blocked error and never with the no-items error — the
title check precedes selector resolution, whatever the item nodes are. -/
theorem C7_bot_block_precedence (doc : Document)
    (h : doc.title = "ShieldSquare Captcha") :
    scrapeItemsAndExtractAdDetails doc = .error .botBlocked ∧
    scrapeItemsAndExtractAdDetails doc ≠ .error .noItemsFound := by
  unfold scrapeItemsAndExtractAdDetails
  rw [if_pos h]
  exact ⟨rfl, by simp⟩

/-- Witness for `C7_bot_block_precedence`: the bot-challenge title with no
item nodes at all — still `botBlocked`, not `noItemsFound`. -/
theorem C7_bot_block_precedence_witness :
    scrapeItemsAndExtractAdDetails ⟨"ShieldSquare Captcha", []⟩ = .error .botBlocked ∧
    scrapeItemsAndExtractAdDetails ⟨"ShieldSquare Captcha", []⟩ ≠ .error .noItemsFound :=
  C7_bot_block_precedence ⟨"ShieldSquare Captcha", []⟩ rfl

/-- Claim C8: on a successful extraction every matched node yields exactly
one record (the output has one record per node); a missing image `src`,
empty text fields, and a missing or empty relative link each degrade to
the empty string in that record rather than dropping it, and when a
non-empty relative link is present `fullLink` is the fixed origin
`https://www.yad2.co.il` prepended to it. -/
theorem C8_partial_fields_one_record (doc : Document)
    (h1 : doc.title ≠ "ShieldSquare Captcha") (h2 : doc.items ≠ []) :
    (scrapeItemsAndExtractAdDetails doc = .ok (doc.items.map extractAd)
      ∧ (doc.items.map extractAd).length = doc.items.length)
    ∧ (∀ elm : ItemNode,
        (elm.imageSrc = none → (extractAd elm).imageUrl = "")
        ∧ (elm.addressText = "" → (extractAd elm).address = "")
        ∧ (elm.descriptionText = "" → (extractAd elm).description = "")
        ∧ (elm.structureText = "" → (extractAd elm).structure0 = "")
        ∧ (elm.priceText = "" → (extractAd elm).price = "")
        ∧ (elm.relativeLink = none ∨ elm.relativeLink = some "" →
            (extractAd elm).fullLink = "")
        ∧ (∀ rl, elm.relativeLink = some rl → rl ≠ "" →
            (extractAd elm).fullLink = "https://www.yad2.co.il" ++ rl)) := by
  constructor
  · constructor
    · unfold scrapeItemsAndExtractAdDetails
      rw [if_neg h1, if_neg (by simpa [List.isEmpty_iff] using h2)]
    · exact List.length_map _ _
  · intro elm
    refine ⟨?_, ?_, ?_, ?_, ?_, ?_, ?_⟩
    · intro h; simp [extractAd, h]
    · intro h; simp only [extractAd, h]; decide
    · intro h; simp only [extractAd, h]; decide
    · intro h; simp only [extractAd, h]; decide
    · intro h; simp only [extractAd, h]; decide
    · rintro (h | h) <;> simp [extractAd, h]
    · intro rl hrl hne
      simp [extractAd, hrl, hne]

/-- Witness for `C8_partial_fields_one_record`: a one-node document with a
non-bot title; the node misses image, link and all texts. -/
theorem C8_partial_fields_one_record_witness :
    (scrapeItemsAndExtractAdDetails ⟨"listings", [⟨none, "", "", "", "", none⟩]⟩ =
        .ok (([⟨none, "", "", "", "", none⟩] : List ItemNode).map extractAd)
      ∧ (([⟨none, "", "", "", "", none⟩] : List ItemNode).map extractAd).length =
          ([⟨none, "", "", "", "", none⟩] : List ItemNode).length)
    ∧ (∀ elm : ItemNode,
        (elm.imageSrc = none → (extractAd elm).imageUrl = "")
        ∧ (elm.addressText = "" → (extractAd elm).address = "")
        ∧ (elm.descriptionText = "" → (extractAd elm).description = "")
        ∧ (elm.structureText = "" → (extractAd elm).structure0 = "")
        ∧ (elm.priceText = "" → (extractAd elm).price = "")
        ∧ (elm.relativeLink = none ∨ elm.relativeLink = some "" →
            (extractAd elm).fullLink = "")
        ∧ (∀ rl, elm.relativeLink = some rl → rl ≠ "" →
            (extractAd elm).fullLink = "https://www.yad2.co.il" ++ rl)) :=
  C8_partial_fields_one_record ⟨"listings", [⟨none, "", "", "", "", none⟩]⟩
    (by decide) (by decide)

/-- Claim C9: running the change detector twice in succession on the same
topic with the same input — provided some input ad's key is not yet in the
seen-set, which is what makes the first result nonempty — yields a
nonempty result the first time and the empty result the second time: after
the first call every input ad's `imageUrl` is in the persisted set. -/
theorem C9_detectNew_second_run_empty (fs : FS) (ads : List AdRecord) (topic : String)
    (h : ∃ ad ∈ ads, ad.imageUrl ∉ (loadSavedAds fs topic).1) :
    (checkForNewItems fs ads topic).2 ≠ [] ∧
    (checkForNewItems (checkForNewItems fs ads topic).1 ads topic).2 = [] := by
  obtain ⟨ad, had, hnotin⟩ := h
  have hmem : ad ∈ ads.filter
      (fun a => !(decide (a.imageUrl ∈ (loadSavedAds fs topic).1))) := by
    rw [List.mem_filter]
    exact ⟨had, by simpa using hnotin⟩
  have hne : ads.filter
      (fun a => !(decide (a.imageUrl ∈ (loadSavedAds fs topic).1))) ≠ [] :=
    List.ne_nil_of_mem hmem
  constructor
  · rw [checkForNewItems_snd]
    exact hne
  · have hfst := checkForNewItems_fst_pos fs ads topic hne
    have hread : fsRead (checkForNewItems fs ads topic).1 (dataFilePath topic)
        = some (.parsed (addImageUrls (loadSavedAds fs topic).1
            (ads.filter (fun a => !(decide (a.imageUrl ∈ (loadSavedAds fs topic).1)))))) := by
      rw [hfst]
      unfold createPushFlagForWorkflow
      rw [fsRead_fsWrite_ne _ _ _ _ (dataFilePath_ne_pushMe topic), fsRead_fsWrite_self]
    rw [checkForNewItems_snd, loadSavedAds_parsed _ _ _ hread]
    rw [List.filter_eq_nil_iff]
    intro a ha
    simp only [Bool.not_eq_true', decide_eq_false_iff_not, not_not]
    rw [mem_jsSetOfList, mem_addImageUrls]
    by_cases hk : a.imageUrl ∈ (loadSavedAds fs topic).1
    · exact Or.inl hk
    · refine Or.inr ⟨a, ?_, rfl⟩
      rw [List.mem_filter]
      exact ⟨ha, by simpa using hk⟩

/-- Witness for `C9_detectNew_second_run_empty`: an empty file system and
one ad with key `"imgB"`. -/
theorem C9_detectNew_second_run_empty_witness :
    (checkForNewItems ([] : FS) [⟨"", "imgB", "", "", "", ""⟩] "t").2 ≠ [] ∧
    (checkForNewItems (checkForNewItems ([] : FS) [⟨"", "imgB", "", "", "", ""⟩] "t").1
      [⟨"", "imgB", "", "", "", ""⟩] "t").2 = [] :=
  C9_detectNew_second_run_empty ([] : FS) [⟨"", "imgB", "", "", "", ""⟩] "t"
    ⟨⟨"", "imgB", "", "", "", ""⟩, by decide, by decide⟩

/-- Claim C10: within a single call the input is filtered only against the
seen-set loaded before the run.  If two ads in the input share an
`imageUrl` absent from that set, both appear in the result (at distinct
positions), and `scrape` sends a notification for each, i.e. at least two —
keys are added to the set only after the filter completes. -/
theorem C10_duplicate_unseen_key_both_returned (fs : FS) (topic chatId : String)
    (a b : AdRecord) (l1 l2 l3 : List AdRecord)
    (hab : a.imageUrl = b.imageUrl)
    (ha : a.imageUrl ∉ (loadSavedAds fs topic).1) :
    (checkForNewItems fs (l1 ++ a :: (l2 ++ b :: l3)) topic).2 =
      (l1.filter (fun ad => !(decide (ad.imageUrl ∈ (loadSavedAds fs topic).1)))) ++
        a :: ((l2.filter (fun ad => !(decide (ad.imageUrl ∈ (loadSavedAds fs topic).1)))) ++
          b :: (l3.filter (fun ad => !(decide (ad.imageUrl ∈ (loadSavedAds fs topic).1)))))
    ∧ 2 ≤ (scrape fs topic chatId (.ok (l1 ++ a :: (l2 ++ b :: l3)))).2.length := by
  have hpa : (fun ad => !(decide (ad.imageUrl ∈ (loadSavedAds fs topic).1))) a = true := by
    simpa using ha
  have hpb : (fun ad => !(decide (ad.imageUrl ∈ (loadSavedAds fs topic).1))) b = true := by
    simp only []
    rw [← hab]
    simpa using ha
  have hsnd : (checkForNewItems fs (l1 ++ a :: (l2 ++ b :: l3)) topic).2 =
      (l1.filter (fun ad => !(decide (ad.imageUrl ∈ (loadSavedAds fs topic).1)))) ++
        a :: ((l2.filter (fun ad => !(decide (ad.imageUrl ∈ (loadSavedAds fs topic).1)))) ++
          b :: (l3.filter (fun ad => !(decide (ad.imageUrl ∈ (loadSavedAds fs topic).1))))) := by
    rw [checkForNewItems_snd]
    simp only [List.filter_append, List.filter_cons, hpa, hpb, if_true]
  refine ⟨hsnd, ?_⟩
  show 2 ≤ (scrape fs topic chatId (.ok (l1 ++ a :: (l2 ++ b :: l3)))).2.length
  unfold scrape
  dsimp only
  rw [List.length_map, hsnd]
  simp only [List.length_append, List.length_cons]
  omega

/-- Witness for `C10_duplicate_unseen_key_both_returned`: two ads that both
have the empty-string `imageUrl` (absent key) on an empty file system —
both come back as new and two notifications are produced. -/
theorem C10_duplicate_unseen_key_both_returned_witness :
    (checkForNewItems ([] : FS)
        (([] : List AdRecord) ++ ⟨"", "", "", "", "", ""⟩ ::
          (([] : List AdRecord) ++ ⟨"", "", "", "", "", ""⟩ :: ([] : List AdRecord))) "t").2 =
      (([] : List AdRecord).filter
          (fun ad => !(decide (ad.imageUrl ∈ (loadSavedAds ([] : FS) "t").1)))) ++
        (⟨"", "", "", "", "", ""⟩ : AdRecord) ::
          ((([] : List AdRecord).filter
              (fun ad => !(decide (ad.imageUrl ∈ (loadSavedAds ([] : FS) "t").1)))) ++
            (⟨"", "", "", "", "", ""⟩ : AdRecord) ::
              (([] : List AdRecord).filter
                (fun ad => !(decide (ad.imageUrl ∈ (loadSavedAds ([] : FS) "t").1)))))
    ∧ 2 ≤ (scrape ([] : FS) "t" "chat"
        (.ok (([] : List AdRecord) ++ ⟨"", "", "", "", "", ""⟩ ::
          (([] : List AdRecord) ++ ⟨"", "", "", "", "", ""⟩ :: ([] : List AdRecord))))).2.length :=
  C10_duplicate_unseen_key_both_returned ([] : FS) "t" "chat"
    ⟨"", "", "", "", "", ""⟩ ⟨"", "", "", "", "", ""⟩ [] [] []
    rfl (by decide)

end Yad2
